import Mathlib

/-!
Verification of the stockaura predictability-and-decision engine
(src/backend/analysis.py) against its natural-language specification.

The engine is embedded shallowly: real-valued quantities are rationals,
optional statistics (absent when a sub-test's preconditions fail) are
`Option ℚ`, and the decision procedures are translated function by
function from `analysis.py`.
-/

/-- Trend direction derived from the 1-year return (analysis.py lines 779-785);
`unknown` models the Python `None` when no 1-year return is available. -/
inductive Trend
  | up
  | down
  | neutral
  | unknown
deriving DecidableEq

/-- The closed Signal enumeration (analysis.py `generate_trading_signal`),
without the SPEC_ variants, which are modelled by the `spec` flag of `Sig`. -/
inductive BaseSignal
  | doNotTrade
  | noClearSignal
  | waitForTrend
  | buyUptrend
  | buyPullback
  | buyMomentum
  | waitPullback
  | waitOrShortBounce
  | shortDowntrend
  | shortBouncesOnly
  | shortMomentum
  | waitShortBounce
  | waitForReversal
deriving DecidableEq

/-- A final signal: a base label plus whether it carries the SPEC_ prefix
(the code prefixes the string with "SPEC_"). -/
structure Sig where
  base : BaseSignal
  spec : Bool
deriving DecidableEq

/-- Hard gate 2 test (analysis.py line 1307):
`res.get('regime_stability') is not None and res.get('regime_stability') < 0.5`. -/
def stabilityGateFails : Option ℚ → Bool
  | some s => decide (s < 1/2)
  | none => false

/-- Condition `hurst_significant and hurst is not None and hurst > 0.55`
(analysis.py lines 1340 and 1357). -/
def hurstTrendingCheck (sig : Bool) : Option ℚ → Bool
  | some h => sig && decide (11/20 < h)
  | none => false

/-- Fields of the analysis result dictionary consumed by
`generate_trading_signal` (analysis.py lines 1282-1390). -/
structure SignalInput where
  predictability_score : ℕ
  regime_stability : Option ℚ
  is_liquid_enough : Bool
  momentum_corr : Option ℚ
  trend_direction : Trend
  hurst : Option ℚ
  z_ema : Option ℚ
  hurst_significant : Bool
deriving DecidableEq

/-- Directional signal refinement (analysis.py lines 1338-1370), reached only
with trend UP or DOWN and `|momentum| > 0.08`. -/
def directionalSignal (r : SignalInput) (m : ℚ) : BaseSignal :=
  if r.trend_direction = Trend.up then
    if 2/25 < m then
      if hurstTrendingCheck r.hurst_significant r.hurst then
        match r.z_ema with
        | some z =>
          if 1 < z then BaseSignal.waitPullback
          else if -(1/2) < z then BaseSignal.buyUptrend
          else BaseSignal.buyPullback
        | none => BaseSignal.buyUptrend
      else BaseSignal.buyMomentum
    else BaseSignal.waitOrShortBounce
  else
    if 2/25 < m then
      if hurstTrendingCheck r.hurst_significant r.hurst then
        match r.z_ema with
        | some z =>
          if z < -1 then BaseSignal.waitShortBounce
          else if z < 1/2 then BaseSignal.shortDowntrend
          else BaseSignal.shortBouncesOnly
        | none => BaseSignal.shortDowntrend
      else BaseSignal.shortMomentum
    else BaseSignal.waitForReversal

/-- The `actionable_signals` list of analysis.py lines 1382-1386: the signals
that receive the SPEC_ prefix in the speculative tier. -/
def actionableSignals : List BaseSignal :=
  [BaseSignal.buyUptrend, BaseSignal.buyPullback, BaseSignal.buyMomentum,
   BaseSignal.shortDowntrend, BaseSignal.shortBouncesOnly, BaseSignal.shortMomentum,
   BaseSignal.waitOrShortBounce, BaseSignal.waitForReversal]

/-- `generate_trading_signal` (analysis.py lines 1282-1390): hard gates in
order (predictability, regime stability, liquidity), momentum gate, trend
gate, directional refinement, and the speculative SPEC_ prefix. -/
def generateTradingSignal (r : SignalInput) : Sig :=
  if r.predictability_score < 2 then ⟨BaseSignal.doNotTrade, false⟩
  else if stabilityGateFails r.regime_stability then ⟨BaseSignal.doNotTrade, false⟩
  else if r.is_liquid_enough = false then ⟨BaseSignal.doNotTrade, false⟩
  else
    match r.momentum_corr with
    | none => ⟨BaseSignal.noClearSignal, false⟩
    | some m =>
      if |m| ≤ 2/25 then ⟨BaseSignal.noClearSignal, false⟩
      else if r.trend_direction ≠ Trend.up ∧ r.trend_direction ≠ Trend.down then
        if 3/20 < |m| then ⟨BaseSignal.waitForTrend, false⟩ else ⟨BaseSignal.doNotTrade, false⟩
      else
        if r.predictability_score < 3 ∧ directionalSignal r m ∈ actionableSignals
        then ⟨directionalSignal r m, true⟩
        else ⟨directionalSignal r m, false⟩

/-- Momentum-based regime stability assignment (analysis.py lines 1043-1063),
for the case where both correlations are defined. -/
def momentumStabilityBase (corrIn corrOos : ℚ) : ℚ :=
  if 1/20 < |corrIn| then
    if (0 < corrIn ∧ 0 < corrOos) ∨ (corrIn < 0 ∧ corrOos < 0) then
      if 1/20 ≤ |corrOos| then 1 else 1/2
    else 0
  else 0

/-- Agreement of in-sample and out-of-sample Hurst regime classifications
(analysis.py lines 1072-1078). -/
def hurstRegimeAgrees (hIn hOos : ℚ) : Bool :=
  (decide (11/20 < hIn) && decide (11/20 < hOos)) ||
  (decide (hIn < 9/20) && decide (hOos < 9/20))

/-- Regime stability as stored in the result (analysis.py lines 1043-1082):
the momentum-based value, capped at 0.5 when the in-sample Hurst is
significant, both Hurst values are available, and the regimes do not agree. -/
def regimeStability (corrIn corrOos hurstIn hurstOos : Option ℚ) (hurstSig : Bool) : Option ℚ :=
  match corrIn, corrOos with
  | some a, some b =>
    match hurstIn, hurstOos with
    | some hI, some hO =>
      if hurstSig = true then
        if hurstRegimeAgrees hI hO = false ∧ 1/2 < momentumStabilityBase a b
        then some (1/2) else some (momentumStabilityBase a b)
      else some (momentumStabilityBase a b)
    | some _, none => some (momentumStabilityBase a b)
    | none, some _ => some (momentumStabilityBase a b)
    | none, none => some (momentumStabilityBase a b)
  | _, _ => none

/-- Regime classification (spec section 4.1): `H > 0.55` trending,
`H < 0.45` mean-reverting, otherwise no regime. -/
inductive HurstRegime
  | trending
  | meanReverting
  | noRegime
deriving DecidableEq

/-- Classify a Hurst value into its regime. -/
def classifyRegime (h : ℚ) : HurstRegime :=
  if 11/20 < h then HurstRegime.trending
  else if h < 9/20 then HurstRegime.meanReverting
  else HurstRegime.noRegime

/-- Wait states of the Signal enumeration, by their WAIT_ name, as used by the
spec's wording "not a WAIT state" (this is the spec's notion, for claim C3;
the code's own list is `actionableSignals`). -/
def isWaitState : BaseSignal → Bool
  | BaseSignal.waitForTrend => true
  | BaseSignal.waitPullback => true
  | BaseSignal.waitShortBounce => true
  | BaseSignal.waitOrShortBounce => true
  | BaseSignal.waitForReversal => true
  | _ => false

/-- The spec's wording of "actionable" in claim C3: not a WAIT state and not
DO_NOT_TRADE. Stated from the spec, to be compared with `actionableSignals`. -/
def claimC3Actionable (s : BaseSignal) : Bool :=
  !(isWaitState s) && !(s == BaseSignal.doNotTrade)

/-- Speculative position halving (analysis.py lines 1207-1222): first
component is the resulting `suggested_shares`, second is
`speculative_full_shares` (none when the key is not set). -/
def speculativeHalving (finalSig : Sig) (suggestedShares : Option ℕ) : Option ℕ × Option ℕ :=
  if finalSig.spec = true then
    match suggestedShares with
    | some n => if 1 < n then (some (max 1 (n / 2)), some n) else (some n, none)
    | none => (none, none)
  else (suggestedShares, none)

/-- Liquidity decision (analysis.py lines 1134-1173): first component is
`is_liquid_enough`, second is `liquidity_failed`. When any of the three
inputs is undefined the code defaults to liquid (lines 1171-1173). -/
def liquidityCheck (psv edge friction : Option ℚ) : Bool × Bool :=
  match psv, edge, friction with
  | some p, some e, some f =>
    if 1/50 ≤ p then (false, true)
    else if e ≤ f * 3 then (false, false)
    else (true, false)
  | _, _, _ => (true, false)

/-- The sub-test outcomes feeding the predictability score; a field is `none`
when its preconditions on minimum sample size were unmet or its computation
degenerated (analysis.py `res` dictionary). -/
structure SubTests where
  hurst : Option ℚ
  hurst_significant : Bool
  momentum_corr : Option ℚ
  mean_rev_up : Option ℚ
  mean_rev_down : Option ℚ
  regime_stability : Option ℚ
  vp_confirming : Option Bool
  lb_pvalue : Option ℚ
  adf_pvalue : Option ℚ
deriving DecidableEq

/-- Stepwise accumulation of the predictability score, mirroring the five
`predictability_score += 1` sites of analysis.py (lines 979, 1008, 1019,
1088, 1101). The Ljung-Box and ADF fields are computed but never scored. -/
def predictabilityScore (t : SubTests) : ℕ :=
  let s0 : ℕ := 0
  let s1 := match t.hurst with
    | some h => if t.hurst_significant = true ∧ (11/20 < h ∨ h < 9/20) then s0 + 1 else s0
    | none => s0
  let s2 := match t.momentum_corr with
    | some m => if 2/25 < |m| then s1 + 1 else s1
    | none => s1
  let s3 := match t.mean_rev_up, t.mean_rev_down with
    | some u, some d => if 3/1000 < |u| ∧ 3/1000 < |d| then s2 + 1 else s2
    | _, _ => s2
  let s4 := match t.regime_stability with
    | some st => if 1/2 ≤ st then s3 + 1 else s3
    | none => s3
  match t.vp_confirming with
  | some c => if c = true then s4 + 1 else s4
  | none => s4

/-- Unit contribution (a): significant Hurst regime (analysis.py line 979). -/
def hurstPoint (t : SubTests) : ℕ :=
  match t.hurst with
  | some h => if t.hurst_significant = true ∧ (11/20 < h ∨ h < 9/20) then 1 else 0
  | none => 0

/-- Unit contribution (b): momentum correlation above 0.08 in absolute value
(analysis.py line 1008). -/
def momentumPoint (t : SubTests) : ℕ :=
  match t.momentum_corr with
  | some m => if 2/25 < |m| then 1 else 0
  | none => 0

/-- Unit contribution (c): both mean-reversion magnitudes above 0.003
(analysis.py line 1019). -/
def meanReversionPoint (t : SubTests) : ℕ :=
  match t.mean_rev_up, t.mean_rev_down with
  | some u, some d => if 3/1000 < |u| ∧ 3/1000 < |d| then 1 else 0
  | _, _ => 0

/-- Unit contribution (d): regime stability at least 0.5 (analysis.py
line 1088). -/
def stabilityPoint (t : SubTests) : ℕ :=
  match t.regime_stability with
  | some st => if 1/2 ≤ st then 1 else 0
  | none => 0

/-- Unit contribution (e): volume-price confirmation (analysis.py line 1101). -/
def volumePricePoint (t : SubTests) : ℕ :=
  match t.vp_confirming with
  | some c => if c = true then 1 else 0
  | none => 0

/-- Outcome of the class-1 validation gates at the head of `analyze_stock`
(analysis.py lines 626-667). The error constructors carry the offending
ticker and no statistical payload; `proceed` hands the bar series to the
statistical pipeline. -/
inductive GateOutcome
  | errConn (ticker : String)
  | errEmpty (ticker : String)
  | errHistory (ticker : String)
  | errAccount (ticker : String) (current minAccountNeeded : ℚ)
  | proceed (bars : List ℚ) (current : ℚ)
deriving DecidableEq

/-- Class-1 gates of `analyze_stock` (analysis.py lines 626-667): download
failure, empty frame, short history, unaffordable account. `download` is the
provider's close series (`none` models a raised connection error); `current`
is the price after the last-close fallback of line 650. -/
def analyzeStockGates (ticker : String) (download : Option (List ℚ)) (current : ℚ)
    (accountSize riskPerTrade : ℚ) : GateOutcome :=
  match download with
  | none => GateOutcome.errConn ticker
  | some df =>
    if df.length = 0 then GateOutcome.errEmpty ticker
    else if df.length < 252 then GateOutcome.errHistory ticker
    else if current ≠ 0 ∧ accountSize < current * (1 + riskPerTrade) then
      GateOutcome.errAccount ticker current (current * (1 + riskPerTrade))
    else GateOutcome.proceed df current

/-- The ticker carried by a gate outcome (errors only). -/
def gateTicker : GateOutcome → Option String
  | GateOutcome.errConn t => some t
  | GateOutcome.errEmpty t => some t
  | GateOutcome.errHistory t => some t
  | GateOutcome.errAccount t _ _ => some t
  | GateOutcome.proceed _ _ => none

/-- Whether a gate outcome is a class-1 error (anything but `proceed`). -/
def isClassOneError : GateOutcome → Bool
  | GateOutcome.proceed _ _ => false
  | _ => true

/-- Position sizing outcome (analysis.py lines 828-932). -/
inductive PositionOutcome
  | accepted (shares : ℕ) (stopLong stopShort riskAmount : ℚ)
  | unaffordable (affordableShares : ℤ) (minAccountForRisk : ℚ)
  | fractionalUnexecutable (minAccountForOneShare : ℚ)
  | skipped
deriving DecidableEq

/-- Python `int()` on a rational: truncation toward zero. -/
def pyInt (q : ℚ) : ℤ := if 0 ≤ q then ⌊q⌋ else -⌊-q⌋

/-- PositionSizer (analysis.py lines 828-932). `dailyVol` is the daily
volatility fraction `(volatility/100)/sqrt 252` computed upstream (line 831);
the sizer itself is exact rational arithmetic on it. `skipped` models the
case `stop_loss_dist ≤ 0` where no sizing fields are set. -/
def positionSizer (accountSize riskPerTrade current dailyVol : ℚ) : PositionOutcome :=
  let stopLossDist := current * (dailyVol * 2)
  if 0 < stopLossDist then
    let riskAmount := accountSize * riskPerTrade
    let sharesToBuy := riskAmount / stopLossDist
    let wholeShares := pyInt sharesToBuy
    if 1 ≤ wholeShares then
      let positionValue := (wholeShares : ℚ) * current
      if positionValue ≤ accountSize then
        PositionOutcome.accepted wholeShares.toNat (current - stopLossDist)
          (current + stopLossDist) riskAmount
      else
        PositionOutcome.unaffordable (pyInt (accountSize / current)) positionValue
    else
      PositionOutcome.fractionalUnexecutable (stopLossDist / riskPerTrade)
  else PositionOutcome.skipped

/-- Mean of a list of rationals (`np.mean`); 0 on the empty list. -/
def listMean (l : List ℚ) : ℚ := l.sum / (l.length : ℚ)

/-- Population variance of a list of rationals (`np.std` squared). -/
def listVariance (l : List ℚ) : ℚ :=
  ((l.map (fun x => (x - listMean l) ^ 2)).sum) / (l.length : ℚ)

/-- Result tuple of `hurst_with_baseline` restricted to the fields the claims
use: the real H, the shuffled mean, the shuffled variance (std squared) and
the significance flag. -/
structure BaselineResult where
  H : ℚ
  shufMean : Option ℚ
  shufVar : Option ℚ
  significant : Bool
deriving DecidableEq

/-- Significance decision of `hurst_with_baseline` (analysis.py lines
145-176), given the real H and the list of valid shuffled Hurst values. The
code tests `std > 0 and |H - mean| / std > 1.5` with `std = sqrt var`; the
kernel-executable equivalent used here is `var > 0 and (H - mean)^2 >
(3/2)^2 * var`, proved equivalent over the reals in the C8 theorem. -/
def hurstBaselineDecision (H : ℚ) (shuffled : List ℚ) : BaselineResult :=
  if shuffled.length < 10 then ⟨H, none, none, false⟩
  else
    let m := listMean shuffled
    let v := listVariance shuffled
    if 0 < v ∧ 9/4 * v < (H - m) ^ 2 then ⟨H, some m, some v, true⟩
    else ⟨H, some m, some v, false⟩

/-- `np.percentile` with the default linear interpolation: index
`h = p*(n-1)/100` into the sorted data, interpolating between the
neighbouring order statistics. -/
def percentileLinear (l : List ℚ) (p : ℚ) : ℚ :=
  let s := l.mergeSort (· ≤ ·)
  let n := s.length
  if n = 0 then 0
  else
    let h := p * ((n : ℚ) - 1) / 100
    let a := s.getD (⌊h⌋).toNat 0
    let b := s.getD (⌈h⌉).toNat 0
    a + (h - (⌊h⌋ : ℚ)) * (b - a)

/-- Non-overlapping compounded block returns (analysis.py lines 239-247):
block i is `prod (1 + r) - 1` over returns `[i*w, (i+1)*w)`. -/
def blockReturnsList (returns : List ℚ) (windowDays : ℕ) : List ℚ :=
  (List.range (returns.length / windowDays)).map
    (fun i => ((returns.drop (i * windowDays)).take windowDays).foldl
      (fun acc r => acc * (1 + r)) 1 - 1)

/-- `non_overlapping_mean_reversion` (analysis.py lines 225-276): mean of the
next-block return after strict top-quartile (resp. bottom-quartile) blocks;
`none` when no block qualifies or fewer than 6 blocks exist. -/
def nonOverlappingMeanReversion (returns : List ℚ) (windowDays : ℕ) : Option ℚ × Option ℚ :=
  if returns.length / windowDays < 6 then (none, none)
  else
    let br := blockReturnsList returns windowDays
    if br.length < 6 then (none, none)
    else
      let q75 := percentileLinear br 75
      let q25 := percentileLinear br 25
      let upNext := (List.range (br.length - 1)).filterMap
        (fun i => if q75 < br.getD i 0 then some (br.getD (i + 1) 0) else none)
      let downNext := (List.range (br.length - 1)).filterMap
        (fun i => if br.getD i 0 < q25 then some (br.getD (i + 1) 0) else none)
      ((if upNext.length ≠ 0 then some (listMean upNext) else none),
       (if downNext.length ≠ 0 then some (listMean downNext) else none))

/-- One step of a 64-bit linear congruential generator. Modelled from the
spec: `np.random.default_rng` (an external library) is a deterministic pure
function of its seed; the exact stream values are irrelevant to claim C9,
which is about the seed being the fixed local constant 42. -/
def lcgStep (s : ℕ) : ℕ := (6364136223846793005 * s + 1442695040888963407) % (2 ^ 64)

/-- Modelled from the spec: `rng.permutation(series)` produces a permutation
of the series determined by the generator state, modelled as a rotation. -/
def rngPermute (state : ℕ) (l : List ℚ) : List ℚ :=
  l.rotateLeft (state % (max 1 l.length))

/-- The sequence of shuffled copies of the series drawn from the generator
(analysis.py lines 152-156), threading the generator state explicitly. -/
def shuffleStream (state : ℕ) (series : List ℚ) : ℕ → List (List ℚ)
  | 0 => []
  | n + 1 => rngPermute state series :: shuffleStream (lcgStep state) series n

/-- `hurst_with_baseline` (analysis.py lines 128-176) with the DFA estimator
abstracted as the pure function `est` (dfa_hurst, lines 21-125, uses no
randomness; `none` models its NaN return). `ambientRng` stands for the
process-wide random state an impure implementation would consult; the code
instead seeds a local generator with the constant 42 (line 150), so the
parameter is unused. -/
def hurstWithBaselineModel (est : List ℚ → Option ℚ) (series : List ℚ) (nShuffles : ℕ)
    (ambientRng : ℕ) : Option BaselineResult :=
  match est series with
  | none => none
  | some H =>
    let shuffles := shuffleStream 42 series nShuffles
    some (hurstBaselineDecision H (shuffles.filterMap est))

/-- Engine configuration (analysis.py `analyze_stock` keyword arguments). -/
structure EngineConfig where
  windowDays : ℕ
  accountSize : ℚ
  riskPerTrade : ℚ
  nShuffles : ℕ
deriving DecidableEq

/-- The per-invocation series snapshot and the descriptive statistics the
code derives from it by pure arithmetic (trend direction, z-EMA, volatility,
daily volatility, 30-day average volume, total friction, volume-price
confirmation); the irrational conversions (square roots) happen upstream of
the decision logic, so these enter the model as precomputed inputs. -/
structure EngineSeries where
  returnsTrain : List ℚ
  returnsTest : List ℚ
  current : ℚ
  dailyVol : ℚ
  trend : Trend
  zEma : Option ℚ
  volatility : Option ℚ
  avgVol30 : ℚ
  totalFriction : ℚ
  vpConfirming : Option Bool
deriving DecidableEq

/-- The externally visible fields of the engine result covered by the model. -/
structure EngineResult where
  hurst : Option ℚ
  hurst_significant : Bool
  hurst_shuffled_mean : Option ℚ
  momentum_corr : Option ℚ
  momentum_corr_oos : Option ℚ
  mean_rev_up : Option ℚ
  mean_rev_down : Option ℚ
  regime_stability : Option ℚ
  predictability_score : ℕ
  is_liquid_enough : Bool
  liquidity_failed : Bool
  position : PositionOutcome
  final_signal : Sig
deriving DecidableEq

/-- One full engine invocation (`analyze_stock` after the class-1 gates),
assembled from the component embeddings. `est` abstracts `dfa_hurst` and
`mcorr` abstracts `multi_day_momentum_corr` (both pure functions in the
source; their Pearson/log-log fits are irrational). `ambientRng` is the
ambient random state, unused because the only randomness is locally seeded
(analysis.py line 150). -/
def runEngine (est mcorr : List ℚ → Option ℚ) (inp : EngineSeries) (cfg : EngineConfig)
    (ambientRng : ℕ) : EngineResult :=
  let hb := hurstWithBaselineModel est inp.returnsTrain cfg.nShuffles ambientRng
  let hurst := hb.map (fun b => b.H)
  let hsig := match hb with | some b => b.significant | none => false
  let hShufMean := match hb with | some b => b.shufMean | none => none
  let hbOos := hurstWithBaselineModel est inp.returnsTest (max 10 (cfg.nShuffles / 3)) ambientRng
  let hurstOos := hbOos.map (fun b => b.H)
  let mc := mcorr inp.returnsTrain
  let mcOos := mcorr inp.returnsTest
  let mr := nonOverlappingMeanReversion inp.returnsTrain cfg.windowDays
  let rs := regimeStability mc mcOos hurst hurstOos hsig
  let t : SubTests := ⟨hurst, hsig, mc, mr.1, mr.2, rs, inp.vpConfirming, none, none⟩
  let score := predictabilityScore t
  let position := positionSizer cfg.accountSize cfg.riskPerTrade inp.current inp.dailyVol
  let calcShares := (cfg.accountSize * cfg.riskPerTrade) / (inp.current * (inp.dailyVol * 2))
  let psv := if 0 < inp.avgVol30 then some (calcShares / inp.avgVol30) else none
  let edge := match mc, inp.volatility with
    | some m, some v => some (|m| * v)
    | _, _ => none
  let liq := liquidityCheck psv edge (some inp.totalFriction)
  let sigIn : SignalInput := ⟨score, rs, liq.1, mc, inp.trend, hurst, inp.zEma, hsig⟩
  ⟨hurst, hsig, hShufMean, mc, mcOos, mr.1, mr.2, rs, score, liq.1, liq.2, position,
   generateTradingSignal sigIn⟩

/-! ### Helper lemmas -/

/-- Opposite-sign correlations always give the momentum stability value 0. -/
lemma momentumStabilityBase_opposite (a b : ℚ)
    (h : (0 < a ∧ b < 0) ∨ (a < 0 ∧ 0 < b)) :
    momentumStabilityBase a b = 0 := by
  unfold momentumStabilityBase
  split_ifs with h1 h2 h3
  · rcases h with ⟨ha, hb⟩ | ⟨ha, hb⟩ <;> rcases h2 with ⟨x, y⟩ | ⟨x, y⟩ <;> linarith
  · rcases h with ⟨ha, hb⟩ | ⟨ha, hb⟩ <;> rcases h2 with ⟨x, y⟩ | ⟨x, y⟩ <;> linarith
  · rfl
  · rfl

/-- The momentum stability value is one of 0, 1/2, 1. -/
lemma momentumStabilityBase_range (a b : ℚ) :
    0 ≤ momentumStabilityBase a b ∧ momentumStabilityBase a b ≤ 1 := by
  unfold momentumStabilityBase
  split_ifs <;> norm_num

/-- When the code's agreement test passes, the two regime classifications
coincide. -/
lemma hurstRegimeAgrees_imp_classify_eq (hI hO : ℚ)
    (h : hurstRegimeAgrees hI hO = true) :
    classifyRegime hI = classifyRegime hO := by
  unfold hurstRegimeAgrees at h
  simp only [Bool.or_eq_true, Bool.and_eq_true, decide_eq_true_eq] at h
  unfold classifyRegime
  rcases h with ⟨h1, h2⟩ | ⟨h1, h2⟩
  · rw [if_pos h1, if_pos h2]
  · rw [if_neg (show ¬(11/20 < hI) by linarith), if_pos h1,
      if_neg (show ¬(11/20 < hO) by linarith), if_pos h2]

/-! ### Claim theorems -/

/-- C1: the signal state machine applies its hard gates in order — a
predictability score below 2 yields DO_NOT_TRADE; a defined regime stability
below 0.5 yields DO_NOT_TRADE; inadequate liquidity yields DO_NOT_TRADE; an
undefined momentum correlation, or one at most 0.08 in absolute value, yields
NO_CLEAR_SIGNAL — and whenever the two momentum correlations are defined with
opposite signs, the stored regime stability is 0.0 and the final signal is
DO_NOT_TRADE. -/
theorem c1_hard_gates :
    (∀ r : SignalInput, r.predictability_score < 2 →
      generateTradingSignal r = ⟨BaseSignal.doNotTrade, false⟩) ∧
    (∀ (r : SignalInput) (s : ℚ), 2 ≤ r.predictability_score →
      r.regime_stability = some s → s < 1/2 →
      generateTradingSignal r = ⟨BaseSignal.doNotTrade, false⟩) ∧
    (∀ r : SignalInput, 2 ≤ r.predictability_score →
      stabilityGateFails r.regime_stability = false → r.is_liquid_enough = false →
      generateTradingSignal r = ⟨BaseSignal.doNotTrade, false⟩) ∧
    (∀ r : SignalInput, 2 ≤ r.predictability_score →
      stabilityGateFails r.regime_stability = false → r.is_liquid_enough = true →
      (r.momentum_corr = none ∨ ∃ m, r.momentum_corr = some m ∧ |m| ≤ 2/25) →
      generateTradingSignal r = ⟨BaseSignal.noClearSignal, false⟩) ∧
    (∀ (a b : ℚ) (hI hO : Option ℚ) (hsig : Bool),
      (0 < a ∧ b < 0) ∨ (a < 0 ∧ 0 < b) →
      regimeStability (some a) (some b) hI hO hsig = some 0) ∧
    (∀ r : SignalInput, r.regime_stability = some 0 →
      generateTradingSignal r = ⟨BaseSignal.doNotTrade, false⟩) := by
  refine ⟨?_, ?_, ?_, ?_, ?_, ?_⟩
  · intro r h
    simp [generateTradingSignal, h]
  · intro r s hsc hrs hlt
    have hg : stabilityGateFails r.regime_stability = true := by
      rw [hrs]; simp only [stabilityGateFails, decide_eq_true_eq]; exact hlt
    simp [generateTradingSignal, hg, show ¬(r.predictability_score < 2) from by omega]
  · intro r hsc hst hliq
    simp [generateTradingSignal, hst, hliq,
      show ¬(r.predictability_score < 2) from by omega]
  · intro r hsc hst hliq hm
    rcases hm with hmc | ⟨m, hmc, hle⟩
    · simp [generateTradingSignal, hmc, hst, hliq,
        show ¬(r.predictability_score < 2) from by omega]
    · simp [generateTradingSignal, hmc, hst, hliq, hle,
        show ¬(r.predictability_score < 2) from by omega]
  · intro a b hI hO hsig h
    have hb := momentumStabilityBase_opposite a b h
    have h0 : ¬((1:ℚ)/2 < 0) := by norm_num
    unfold regimeStability
    rcases hI with _ | hI <;> rcases hO with _ | hO <;> cases hsig <;> simp [hb, h0]
  · intro r h
    by_cases hs : r.predictability_score < 2
    · simp [generateTradingSignal, hs]
    · have hg : stabilityGateFails r.regime_stability = true := by
        rw [h]; simp only [stabilityGateFails, decide_eq_true_eq]; norm_num
      simp [generateTradingSignal, hs, hg]

/-- Witness for C1 at concrete inputs: each gate fired on an explicit result
record, and a concrete opposite-sign pair. -/
theorem c1_hard_gates_witness :
    generateTradingSignal ⟨0, none, true, some (1/5), Trend.up, none, none, false⟩ =
      ⟨BaseSignal.doNotTrade, false⟩ ∧
    generateTradingSignal ⟨3, some (1/4), true, some (1/5), Trend.up, none, none, false⟩ =
      ⟨BaseSignal.doNotTrade, false⟩ ∧
    generateTradingSignal ⟨3, some 1, false, some (1/5), Trend.up, none, none, false⟩ =
      ⟨BaseSignal.doNotTrade, false⟩ ∧
    generateTradingSignal ⟨3, some 1, true, none, Trend.up, none, none, false⟩ =
      ⟨BaseSignal.noClearSignal, false⟩ ∧
    regimeStability (some (1/10)) (some (-(1/10))) none none false = some 0 ∧
    generateTradingSignal ⟨3, some 0, true, some (1/5), Trend.up, none, none, false⟩ =
      ⟨BaseSignal.doNotTrade, false⟩ := by
  obtain ⟨p1, p2, p3, p4, p5, p6⟩ := c1_hard_gates
  exact ⟨p1 _ (by norm_num),
         p2 _ (1/4) (by norm_num) rfl (by norm_num),
         p3 _ (by norm_num) (by simp only [stabilityGateFails, decide_eq_false_iff_not]; norm_num) rfl,
         p4 _ (by norm_num) (by simp only [stabilityGateFails, decide_eq_false_iff_not]; norm_num) rfl
           (Or.inl rfl),
         p5 (1/10) (-(1/10)) none none false (Or.inl (by norm_num)),
         p6 _ rfl⟩

/-- C5: with both momentum correlations defined, the stability assignment is
0 when the in-sample magnitude is at most 0.05, otherwise 1.0 for same sign
with out-of-sample magnitude at least 0.05, 0.5 for same sign but a weaker
out-of-sample value, 0.0 on a sign flip; when the in-sample Hurst is
significant, both Hurst values are available and their regime classifications
disagree, the stored stability is the momentum value capped at 0.5; and any
defined stability lies in [0,1]. -/
theorem c5_regime_stability :
    (∀ a b : ℚ, |a| ≤ 1/20 → momentumStabilityBase a b = 0) ∧
    (∀ a b : ℚ, 1/20 < |a| → (0 < a ∧ 0 < b) ∨ (a < 0 ∧ b < 0) → 1/20 ≤ |b| →
      momentumStabilityBase a b = 1) ∧
    (∀ a b : ℚ, 1/20 < |a| → (0 < a ∧ 0 < b) ∨ (a < 0 ∧ b < 0) → |b| < 1/20 →
      momentumStabilityBase a b = 1/2) ∧
    (∀ a b : ℚ, 1/20 < |a| → (0 < a ∧ b < 0) ∨ (a < 0 ∧ 0 < b) →
      momentumStabilityBase a b = 0) ∧
    (∀ a b hI hO : ℚ, classifyRegime hI ≠ classifyRegime hO →
      regimeStability (some a) (some b) (some hI) (some hO) true =
        some (min (momentumStabilityBase a b) (1/2))) ∧
    (∀ (cI cO hI hO : Option ℚ) (sig : Bool) (s : ℚ),
      regimeStability cI cO hI hO sig = some s → 0 ≤ s ∧ s ≤ 1) := by
  refine ⟨?_, ?_, ?_, ?_, ?_, ?_⟩
  · intro a b h
    unfold momentumStabilityBase
    rw [if_neg (not_lt.2 h)]
  · intro a b h1 h2 h3
    unfold momentumStabilityBase
    rw [if_pos h1, if_pos h2, if_pos h3]
  · intro a b h1 h2 h3
    unfold momentumStabilityBase
    rw [if_pos h1, if_pos h2, if_neg (not_le.2 h3)]
  · intro a b h1 h2
    exact momentumStabilityBase_opposite a b h2
  · intro a b hI hO hdis
    have hag : hurstRegimeAgrees hI hO = false := by
      cases hca : hurstRegimeAgrees hI hO
      · rfl
      · exact absurd (hurstRegimeAgrees_imp_classify_eq hI hO hca) hdis
    rcases le_or_lt (momentumStabilityBase a b) (1/2) with hle | hlt
    · rw [min_eq_left hle]
      show (if hurstRegimeAgrees hI hO = false ∧ 1/2 < momentumStabilityBase a b
            then some (1/2) else some (momentumStabilityBase a b)) =
        some (momentumStabilityBase a b)
      rw [if_neg (fun hc => absurd hc.2 (not_lt.2 hle))]
    · rw [min_eq_right hlt.le]
      show (if hurstRegimeAgrees hI hO = false ∧ 1/2 < momentumStabilityBase a b
            then some (1/2) else some (momentumStabilityBase a b)) = some (1/2)
      rw [if_pos ⟨hag, hlt⟩]
  · intro cI cO hI hO sig s h
    rcases cI with _ | a
    · simp [regimeStability] at h
    rcases cO with _ | b
    · simp [regimeStability] at h
    obtain ⟨h0, h1⟩ := momentumStabilityBase_range a b
    rcases hI with _ | hI <;> rcases hO with _ | hO <;> cases sig <;>
      simp only [regimeStability, Bool.false_eq_true, if_false, if_true,
        Option.some.injEq] at h
    · exact h ▸ ⟨h0, h1⟩
    · exact h ▸ ⟨h0, h1⟩
    · exact h ▸ ⟨h0, h1⟩
    · exact h ▸ ⟨h0, h1⟩
    · exact h ▸ ⟨h0, h1⟩
    · exact h ▸ ⟨h0, h1⟩
    · exact h ▸ ⟨h0, h1⟩
    · split_ifs at h <;> simp only [Option.some.injEq] at h <;> subst h
      · norm_num
      · exact ⟨h0, h1⟩

/-- Witness for C5 at concrete inputs: each stability case and the Hurst cap
evaluated on explicit correlations and Hurst values. -/
theorem c5_regime_stability_witness :
    momentumStabilityBase (1/25) (1/10) = 0 ∧
    momentumStabilityBase (1/10) (7/100) = 1 ∧
    momentumStabilityBase (1/10) (1/25) = 1/2 ∧
    momentumStabilityBase (1/10) (-(1/25)) = 0 ∧
    regimeStability (some (1/10)) (some (7/100)) (some (3/5)) (some (2/5)) true =
      some (min (momentumStabilityBase (1/10) (7/100)) (1/2)) ∧
    (0 ≤ (1:ℚ) ∧ (1:ℚ) ≤ 1) := by
  obtain ⟨p1, p2, p3, p4, p5, p6⟩ := c5_regime_stability
  refine ⟨p1 (1/25) (1/10) (by rw [abs_of_nonneg] <;> norm_num),
          p2 (1/10) (7/100) (by rw [abs_of_nonneg] <;> norm_num)
            (Or.inl (by norm_num)) (by rw [abs_of_nonneg] <;> norm_num),
          p3 (1/10) (1/25) (by rw [abs_of_nonneg] <;> norm_num)
            (Or.inl (by norm_num)) (by rw [abs_of_nonneg] <;> norm_num),
          p4 (1/10) (-(1/25)) (by rw [abs_of_nonneg] <;> norm_num)
            (Or.inl (by norm_num)),
          p5 (1/10) (7/100) (3/5) (2/5) (by
            have ht : (11:ℚ)/20 < 3/5 := by norm_num
            have h2 : ¬((11:ℚ)/20 < 2/5) := by norm_num
            have h3 : (2:ℚ)/5 < 9/20 := by norm_num
            simp [classifyRegime, ht, h2, h3]),
          p6 (some (1/10)) (some (7/100)) none none false 1 (by
            have h1 : (1:ℚ)/20 < |(1:ℚ)/10| := by rw [abs_of_nonneg] <;> norm_num
            have h2 : ((0:ℚ) < 1/10 ∧ (0:ℚ) < 7/100) ∨ ((1:ℚ)/10 < 0 ∧ (7:ℚ)/100 < 0) :=
              Or.inl (by norm_num)
            have h3 : (1:ℚ)/20 ≤ |(7:ℚ)/100| := by rw [abs_of_nonneg] <;> norm_num
            have hbase : momentumStabilityBase (1/10) (7/100) = 1 := by
              unfold momentumStabilityBase
              rw [if_pos h1, if_pos h2, if_pos h3]
            show some (momentumStabilityBase (1/10) (7/100)) = some 1
            rw [hbase])⟩

/-- C3 counterexample: at predictability exactly 2 with every hard gate
passing, trend UP and momentum correlation −0.1, the machine emits
SPEC_WAIT_OR_SHORT_BOUNCE — a SPEC_-prefixed WAIT state — so the SPEC_ prefix
is not equivalent to the unprefixed signal being "not a WAIT state and not
DO_NOT_TRADE" as the claim states. -/
theorem c3_counterexample :
    generateTradingSignal ⟨2, some 1, true, some (-(1/10)), Trend.up, none, none, false⟩ =
      ⟨BaseSignal.waitOrShortBounce, true⟩ ∧
    ¬(((generateTradingSignal
        ⟨2, some 1, true, some (-(1/10)), Trend.up, none, none, false⟩).spec = true) ↔
      (claimC3Actionable (generateTradingSignal
        ⟨2, some 1, true, some (-(1/10)), Trend.up, none, none, false⟩).base = true)) := by
  have habs : |(1:ℚ)/10| = 1/10 := abs_of_nonneg (by norm_num)
  have hsig : generateTradingSignal
      ⟨2, some 1, true, some (-(1/10)), Trend.up, none, none, false⟩ =
      ⟨BaseSignal.waitOrShortBounce, true⟩ := by
    norm_num [generateTradingSignal, directionalSignal, stabilityGateFails,
      actionableSignals, habs]
  refine ⟨hsig, ?_⟩
  rw [hsig]
  decide

/-- C3 amended: at predictability exactly 2 with the stability and liquidity
gates passing, the final signal carries the SPEC_ prefix exactly when the
unprefixed signal is in the code's actionable list — which includes the two
reversal-watch states WAIT_OR_SHORT_BOUNCE and WAIT_FOR_REVERSAL and excludes
NO_CLEAR_SIGNAL, WAIT_PULLBACK, WAIT_SHORT_BOUNCE, WAIT_FOR_TREND and
DO_NOT_TRADE — and a SPEC_-prefixed signal with a defined suggested share
count above 1 has the count replaced by max 1 (count / 2), the original
count being retained for display. -/
theorem c3_speculative_tier :
    (∀ r : SignalInput, r.predictability_score = 2 →
      stabilityGateFails r.regime_stability = false → r.is_liquid_enough = true →
      ((generateTradingSignal r).spec = true ↔
        (generateTradingSignal r).base ∈ actionableSignals)) ∧
    (∀ (g : Sig) (n : ℕ), g.spec = true → 1 < n →
      speculativeHalving g (some n) = (some (max 1 (n / 2)), some n)) := by
  refine ⟨?_, ?_⟩
  · intro r hsc hst hliq
    unfold generateTradingSignal
    rw [if_neg (by omega), if_neg (by simp [hst]), if_neg (by simp [hliq])]
    rcases hmc : r.momentum_corr with _ | m
    · simp [actionableSignals]
    · simp only [hmc]
      by_cases h1 : |m| ≤ 2/25
      · rw [if_pos h1]
        simp [actionableSignals]
      · rw [if_neg h1]
        by_cases h2 : r.trend_direction ≠ Trend.up ∧ r.trend_direction ≠ Trend.down
        · rw [if_pos h2]
          by_cases h3 : 3/20 < |m|
          · rw [if_pos h3]; simp [actionableSignals]
          · rw [if_neg h3]; simp [actionableSignals]
        · rw [if_neg h2]
          by_cases h4 : directionalSignal r m ∈ actionableSignals
          · rw [if_pos ⟨by omega, h4⟩]
            simpa using h4
          · rw [if_neg (fun hc => h4 hc.2)]
            simpa using h4
  · intro g n hg hn
    simp [speculativeHalving, hg, hn]

/-- Witness for C3 (amended) at concrete inputs: the prefix equivalence on an
explicit record and the halving of 10 shares to 5. -/
theorem c3_speculative_tier_witness :
    ((generateTradingSignal ⟨2, some 1, true, some (3/20), Trend.up, none, none, false⟩).spec =
        true ↔
      (generateTradingSignal ⟨2, some 1, true, some (3/20), Trend.up, none, none, false⟩).base ∈
        actionableSignals) ∧
    speculativeHalving ⟨BaseSignal.buyUptrend, true⟩ (some 10) =
      (some (max 1 (10 / 2)), some 10) := by
  obtain ⟨p1, p2⟩ := c3_speculative_tier
  exact ⟨p1 _ rfl (by simp only [stabilityGateFails, decide_eq_false_iff_not]; norm_num) rfl,
         p2 _ 10 rfl (by norm_num)⟩

/-- C2: with the three liquidity inputs defined, `is_liquid_enough` is true
exactly when the position-size-vs-volume ratio is below 2% and the expected
edge exceeds three times the total friction; and whenever the ratio is at
least 2%, the result is not liquid with `liquidity_failed` set (position-size
cause), for every edge and friction value. -/
theorem c2_liquidity_gate :
    (∀ p e f : ℚ,
      (liquidityCheck (some p) (some e) (some f)).1 = true ↔ (p < 1/50 ∧ f * 3 < e)) ∧
    (∀ p e f : ℚ, 1/50 ≤ p →
      liquidityCheck (some p) (some e) (some f) = (false, true)) := by
  refine ⟨?_, ?_⟩
  · intro p e f
    show (if 1/50 ≤ p then ((false, true) : Bool × Bool)
          else if e ≤ f * 3 then (false, false) else (true, false)).1 = true ↔
      (p < 1/50 ∧ f * 3 < e)
    by_cases h1 : 1/50 ≤ p
    · rw [if_pos h1]
      constructor
      · intro hc; exact absurd hc (by decide)
      · rintro ⟨hp, -⟩; exact absurd h1 (not_le.2 hp)
    · rw [if_neg h1]
      by_cases h2 : e ≤ f * 3
      · rw [if_pos h2]
        constructor
        · intro hc; exact absurd hc (by decide)
        · rintro ⟨-, he⟩; exact absurd h2 (not_le.2 he)
      · rw [if_neg h2]
        exact ⟨fun _ => ⟨not_le.1 h1, not_le.1 h2⟩, fun _ => rfl⟩
  · intro p e f hp
    show (if 1/50 ≤ p then ((false, true) : Bool × Bool)
          else if e ≤ f * 3 then (false, false) else (true, false)) = (false, true)
    rw [if_pos hp]

/-- Witness for C2 at concrete inputs: the iff at a liquid point, and the
position-size failure at ratio 0.025 (the spec's example) with arbitrary
fixed edge and friction. -/
theorem c2_liquidity_gate_witness :
    ((liquidityCheck (some (1/100)) (some 10) (some 1)).1 = true ↔
      ((1:ℚ)/100 < 1/50 ∧ (1:ℚ) * 3 < 10)) ∧
    liquidityCheck (some (1/40)) (some 10) (some 1) = (false, true) := by
  obtain ⟨p1, p2⟩ := c2_liquidity_gate
  exact ⟨p1 (1/100) 10 1, p2 (1/40) 10 1 (by norm_num)⟩

/-- C4: the predictability score is the sum of exactly one point for each of
the five named sub-tests (significant Hurst regime, momentum magnitude above
0.08, both mean-reversion magnitudes above 0.003, regime stability at least
0.5, volume-price confirmation), each contribution is 0 or 1, the total is at
most 5, and the Ljung-Box and ADF fields never affect the score. -/
theorem c4_predictability_score :
    (∀ t : SubTests,
      predictabilityScore t =
        hurstPoint t + momentumPoint t + meanReversionPoint t +
          stabilityPoint t + volumePricePoint t) ∧
    (∀ t : SubTests,
      hurstPoint t ≤ 1 ∧ momentumPoint t ≤ 1 ∧ meanReversionPoint t ≤ 1 ∧
        stabilityPoint t ≤ 1 ∧ volumePricePoint t ≤ 1) ∧
    (∀ t : SubTests, predictabilityScore t ≤ 5) ∧
    (∀ (h : Option ℚ) (sig : Bool) (mc mu md rs : Option ℚ) (vp : Option Bool)
        (lb adf lb2 adf2 : Option ℚ),
      predictabilityScore ⟨h, sig, mc, mu, md, rs, vp, lb, adf⟩ =
        predictabilityScore ⟨h, sig, mc, mu, md, rs, vp, lb2, adf2⟩) := by
  have hsum : ∀ t : SubTests,
      predictabilityScore t =
        hurstPoint t + momentumPoint t + meanReversionPoint t +
          stabilityPoint t + volumePricePoint t := by
    intro t
    obtain ⟨h, sig, mc, mu, md, rs, vp, lb, adf⟩ := t
    unfold predictabilityScore hurstPoint momentumPoint meanReversionPoint
      stabilityPoint volumePricePoint
    rcases h with _ | h <;> rcases mc with _ | mc <;> rcases mu with _ | mu <;>
      rcases md with _ | md <;> rcases rs with _ | rs <;> rcases vp with _ | vp <;>
      simp only [] <;> split_ifs <;> omega
  have hbound : ∀ t : SubTests,
      hurstPoint t ≤ 1 ∧ momentumPoint t ≤ 1 ∧ meanReversionPoint t ≤ 1 ∧
        stabilityPoint t ≤ 1 ∧ volumePricePoint t ≤ 1 := by
    intro t
    obtain ⟨h, sig, mc, mu, md, rs, vp, lb, adf⟩ := t
    refine ⟨?_, ?_, ?_, ?_, ?_⟩
    · rcases h with _ | h <;> simp only [hurstPoint] <;> (try split_ifs) <;> omega
    · rcases mc with _ | mc <;> simp only [momentumPoint] <;> (try split_ifs) <;> omega
    · rcases mu with _ | mu <;> rcases md with _ | md <;>
        simp only [meanReversionPoint] <;> (try split_ifs) <;> omega
    · rcases rs with _ | rs <;> simp only [stabilityPoint] <;> (try split_ifs) <;> omega
    · rcases vp with _ | vp <;> simp only [volumePricePoint] <;> (try split_ifs) <;> omega
  refine ⟨hsum, hbound, ?_, ?_⟩
  · intro t
    have h1 := hsum t
    obtain ⟨b1, b2, b3, b4, b5⟩ := hbound t
    omega
  · intro h sig mc mu md rs vp lb adf lb2 adf2
    rfl

/-- Unfolding of the gates on a successful download. -/
lemma analyzeStockGates_some (tk : String) (df : List ℚ) (cur aSz rpt : ℚ) :
    analyzeStockGates tk (some df) cur aSz rpt =
      if df.length = 0 then GateOutcome.errEmpty tk
      else if df.length < 252 then GateOutcome.errHistory tk
      else if cur ≠ 0 ∧ aSz < cur * (1 + rpt) then
        GateOutcome.errAccount tk cur (cur * (1 + rpt))
      else GateOutcome.proceed df cur := rfl

/-- C6: each class-1 failure (connection failure, empty result, insufficient
history, unaffordable account) is returned as a structured error value
carrying the ticker; every class-1 error carries the ticker; and no class-1
error reaches the statistical pipeline (it is never a `proceed` outcome), so
in particular the affordability failure precludes the statistical pipeline. -/
theorem c6_error_surface :
    (∀ (tk : String) (cur aSz rpt : ℚ),
      analyzeStockGates tk none cur aSz rpt = GateOutcome.errConn tk) ∧
    (∀ (tk : String) (cur aSz rpt : ℚ),
      analyzeStockGates tk (some []) cur aSz rpt = GateOutcome.errEmpty tk) ∧
    (∀ (tk : String) (df : List ℚ) (cur aSz rpt : ℚ), df.length ≠ 0 → df.length < 252 →
      analyzeStockGates tk (some df) cur aSz rpt = GateOutcome.errHistory tk) ∧
    (∀ (tk : String) (df : List ℚ) (cur aSz rpt : ℚ), 252 ≤ df.length →
      cur ≠ 0 → aSz < cur * (1 + rpt) →
      analyzeStockGates tk (some df) cur aSz rpt =
        GateOutcome.errAccount tk cur (cur * (1 + rpt))) ∧
    (∀ (tk : String) (dl : Option (List ℚ)) (cur aSz rpt : ℚ),
      isClassOneError (analyzeStockGates tk dl cur aSz rpt) = true →
      gateTicker (analyzeStockGates tk dl cur aSz rpt) = some tk) ∧
    (∀ (tk : String) (dl : Option (List ℚ)) (cur aSz rpt : ℚ) (bars : List ℚ) (c : ℚ),
      isClassOneError (analyzeStockGates tk dl cur aSz rpt) = true →
      analyzeStockGates tk dl cur aSz rpt ≠ GateOutcome.proceed bars c) := by
  refine ⟨?_, ?_, ?_, ?_, ?_, ?_⟩
  · intro tk cur aSz rpt
    rfl
  · intro tk cur aSz rpt
    rw [analyzeStockGates_some]
    simp
  · intro tk df cur aSz rpt h0 h1
    rw [analyzeStockGates_some, if_neg h0, if_pos h1]
  · intro tk df cur aSz rpt h0 h1 h2
    rw [analyzeStockGates_some, if_neg (by omega), if_neg (by omega), if_pos ⟨h1, h2⟩]
  · intro tk dl cur aSz rpt hE
    rcases dl with _ | df
    · rfl
    · rw [analyzeStockGates_some] at hE ⊢
      by_cases h0 : df.length = 0
      · rw [if_pos h0]; rfl
      · rw [if_neg h0]
        by_cases h1 : df.length < 252
        · rw [if_pos h1]; rfl
        · rw [if_neg h1]
          by_cases h2 : cur ≠ 0 ∧ aSz < cur * (1 + rpt)
          · rw [if_pos h2]; rfl
          · rw [if_neg h0, if_neg h1, if_neg h2] at hE
            simp [isClassOneError] at hE
  · intro tk dl cur aSz rpt bars c hE heq
    rw [heq] at hE
    simp [isClassOneError] at hE

/-- Witness for C6 at concrete inputs: each gate fired on explicit data. -/
theorem c6_error_surface_witness :
    analyzeStockGates "T1" (some (List.replicate 10 (1:ℚ))) 100 10000 (1/50) =
      GateOutcome.errHistory "T1" ∧
    analyzeStockGates "T1" (some (List.replicate 252 (1:ℚ))) 100 50 (1/50) =
      GateOutcome.errAccount "T1" 100 (100 * (1 + 1/50)) ∧
    gateTicker (analyzeStockGates "T1" none 100 10000 (1/50)) = some "T1" ∧
    analyzeStockGates "T1" none 100 10000 (1/50) ≠ GateOutcome.proceed [] 0 := by
  obtain ⟨p1, p2, p3, p4, p5, p6⟩ := c6_error_surface
  exact ⟨p3 "T1" (List.replicate 10 (1:ℚ)) 100 10000 (1/50)
           (by rw [List.length_replicate]; norm_num) (by rw [List.length_replicate]; norm_num),
         p4 "T1" (List.replicate 252 (1:ℚ)) 100 50 (1/50)
           (by rw [List.length_replicate]) (by norm_num) (by norm_num),
         p5 "T1" none 100 10000 (1/50) rfl,
         p6 "T1" none 100 10000 (1/50) [] 0 rfl⟩

/-- Unfolding of the position sizer into its decision tree. -/
lemma positionSizer_eq (aSz rpt cur dv : ℚ) :
    positionSizer aSz rpt cur dv =
      if 0 < cur * (dv * 2) then
        if 1 ≤ pyInt (aSz * rpt / (cur * (dv * 2))) then
          if (pyInt (aSz * rpt / (cur * (dv * 2))) : ℚ) * cur ≤ aSz then
            PositionOutcome.accepted (pyInt (aSz * rpt / (cur * (dv * 2)))).toNat
              (cur - cur * (dv * 2)) (cur + cur * (dv * 2)) (aSz * rpt)
          else
            PositionOutcome.unaffordable (pyInt (aSz / cur))
              ((pyInt (aSz * rpt / (cur * (dv * 2))) : ℚ) * cur)
        else PositionOutcome.fractionalUnexecutable ((cur * (dv * 2)) / rpt)
      else PositionOutcome.skipped := rfl

/-- C7: the sizer computes shares as (account × risk) / (price × 2 × daily
volatility) floored; a floor below 1 gives the fractional-unexecutable
verdict (minimum account for one share reported), taking precedence over the
value check; a floored position whose value exceeds the account gives the
unaffordable verdict; otherwise both stops price ∓ distance are set. With
account 10000, risk 0.02, price 500 and stop distance 20 the suggested count
is 10 shares; at price 20000 with the same parameters the outcome is
fractional-unexecutable. -/
theorem c7_position_sizer :
    (∀ aSz rpt cur dv : ℚ,
      aSz * rpt / (cur * 2 * dv) = aSz * rpt / (cur * (dv * 2))) ∧
    (∀ aSz rpt cur dv : ℚ, 0 < cur → 0 < dv →
      pyInt (aSz * rpt / (cur * (dv * 2))) < 1 →
      positionSizer aSz rpt cur dv =
        PositionOutcome.fractionalUnexecutable ((cur * (dv * 2)) / rpt)) ∧
    (∀ aSz rpt cur dv : ℚ, 0 < cur → 0 < dv →
      1 ≤ pyInt (aSz * rpt / (cur * (dv * 2))) →
      aSz < (pyInt (aSz * rpt / (cur * (dv * 2))) : ℚ) * cur →
      positionSizer aSz rpt cur dv =
        PositionOutcome.unaffordable (pyInt (aSz / cur))
          ((pyInt (aSz * rpt / (cur * (dv * 2))) : ℚ) * cur)) ∧
    (∀ aSz rpt cur dv : ℚ, 0 < cur → 0 < dv →
      1 ≤ pyInt (aSz * rpt / (cur * (dv * 2))) →
      (pyInt (aSz * rpt / (cur * (dv * 2))) : ℚ) * cur ≤ aSz →
      positionSizer aSz rpt cur dv =
        PositionOutcome.accepted (pyInt (aSz * rpt / (cur * (dv * 2)))).toNat
          (cur - cur * (dv * 2)) (cur + cur * (dv * 2)) (aSz * rpt)) ∧
    positionSizer 10000 (1/50) 500 (1/50) = PositionOutcome.accepted 10 480 520 200 ∧
    positionSizer 10000 (1/50) 20000 (1/50) =
      PositionOutcome.fractionalUnexecutable 40000 := by
  refine ⟨?_, ?_, ?_, ?_, ?_, ?_⟩
  · intro aSz rpt cur dv
    rw [show cur * 2 * dv = cur * (dv * 2) from by ring]
  · intro aSz rpt cur dv hcur hdv hfrac
    have hstop : 0 < cur * (dv * 2) := by nlinarith
    rw [positionSizer_eq, if_pos hstop, if_neg (not_le.2 hfrac)]
  · intro aSz rpt cur dv hcur hdv h1 h2
    have hstop : 0 < cur * (dv * 2) := by nlinarith
    rw [positionSizer_eq, if_pos hstop, if_pos h1, if_neg (not_le.2 h2)]
  · intro aSz rpt cur dv hcur hdv h1 h2
    have hstop : 0 < cur * (dv * 2) := by nlinarith
    rw [positionSizer_eq, if_pos hstop, if_pos h1, if_pos h2]
  · have hv : pyInt ((10000:ℚ) * (1/50) / (500 * (1/50 * 2))) = 10 := by
      norm_num [pyInt]
    rw [positionSizer_eq, if_pos (by norm_num), if_pos (by rw [hv]; norm_num),
      if_pos (by rw [hv]; norm_num)]
    rw [hv]
    norm_num
    decide
  · have hv : pyInt ((10000:ℚ) * (1/50) / (20000 * (1/50 * 2))) = 0 := by
      norm_num [pyInt]
    rw [positionSizer_eq, if_pos (by norm_num), if_neg (by rw [hv]; norm_num)]
    norm_num

/-- Witness for C7 at concrete inputs: all three verdicts exercised through
the general clauses. -/
theorem c7_position_sizer_witness :
    positionSizer 10000 (1/50) 20000 (1/50) =
      PositionOutcome.fractionalUnexecutable ((20000 * (1/50 * 2)) / (1/50)) ∧
    positionSizer 10000 (1/50) 6000 (1/600) =
      PositionOutcome.unaffordable (pyInt (10000 / 6000))
        ((pyInt ((10000:ℚ) * (1/50) / (6000 * (1/600 * 2))) : ℚ) * 6000) ∧
    positionSizer 10000 (1/50) 500 (1/50) =
      PositionOutcome.accepted (pyInt ((10000:ℚ) * (1/50) / (500 * (1/50 * 2)))).toNat
        (500 - 500 * (1/50 * 2)) (500 + 500 * (1/50 * 2)) (10000 * (1/50)) := by
  obtain ⟨p0, p1, p2, p3, p4, p5⟩ := c7_position_sizer
  refine ⟨p1 10000 (1/50) 20000 (1/50) (by norm_num) (by norm_num) ?_,
          p2 10000 (1/50) 6000 (1/600) (by norm_num) (by norm_num) ?_ ?_,
          p3 10000 (1/50) 500 (1/50) (by norm_num) (by norm_num) ?_ ?_⟩
  · norm_num [pyInt]
  · norm_num [pyInt]
  · norm_num [pyInt]
  · norm_num [pyInt]
  · norm_num [pyInt]

/-- The population variance of a list is nonnegative. -/
lemma listVariance_nonneg (l : List ℚ) : 0 ≤ listVariance l := by
  unfold listVariance
  apply div_nonneg
  · apply List.sum_nonneg
    intro x hx
    simp only [List.mem_map] at hx
    obtain ⟨y, -, rfl⟩ := hx
    positivity
  · positivity

/-- Unfolding of the significance decision. -/
lemma hurstBaselineDecision_eq (H : ℚ) (sh : List ℚ) :
    hurstBaselineDecision H sh =
      if sh.length < 10 then ⟨H, none, none, false⟩
      else if 0 < listVariance sh ∧ 9/4 * listVariance sh < (H - listMean sh) ^ 2
      then ⟨H, some (listMean sh), some (listVariance sh), true⟩
      else ⟨H, some (listMean sh), some (listVariance sh), false⟩ := rfl

/-- The rational squared test used by the embedding is equivalent over the
reals to the source's standard-deviation test `std > 0 and |d| / std > 1.5`. -/
lemma significance_bridge (d v : ℚ) (hv : 0 ≤ v) :
    (0 < v ∧ 9/4 * v < d ^ 2) ↔
      (0 < Real.sqrt (v : ℝ) ∧ (3/2 : ℝ) < |(d : ℝ)| / Real.sqrt (v : ℝ)) := by
  have hv' : (0:ℝ) ≤ (v:ℝ) := by exact_mod_cast hv
  constructor
  · rintro ⟨h1, h2⟩
    have hs : 0 < Real.sqrt (v:ℝ) := Real.sqrt_pos.2 (by exact_mod_cast h1)
    refine ⟨hs, ?_⟩
    rw [lt_div_iff₀ hs]
    by_contra hle
    push_neg at hle
    have hd2 : ((9/4 * v : ℚ) : ℝ) < ((d ^ 2 : ℚ) : ℝ) := Rat.cast_lt.2 h2
    push_cast at hd2
    have h4 : |(d:ℝ)| ^ 2 ≤ (3/2 * Real.sqrt (v:ℝ)) ^ 2 := by
      apply pow_le_pow_left₀ (abs_nonneg _) hle
    rw [sq_abs] at h4
    have h5 : (3/2 * Real.sqrt (v:ℝ)) ^ 2 = 9/4 * (v:ℝ) := by
      rw [mul_pow, Real.sq_sqrt hv']
      ring
    linarith
  · rintro ⟨h1, h2⟩
    have hv1 : (0:ℝ) < (v:ℝ) := Real.sqrt_pos.1 h1
    refine ⟨by exact_mod_cast hv1, ?_⟩
    rw [lt_div_iff₀ h1] at h2
    have h3 : (3/2 * Real.sqrt (v:ℝ)) ^ 2 < |(d:ℝ)| ^ 2 := by
      apply pow_lt_pow_left₀ h2 (by positivity)
      norm_num
    rw [sq_abs] at h3
    have h5 : (3/2 * Real.sqrt (v:ℝ)) ^ 2 = 9/4 * (v:ℝ) := by
      rw [mul_pow, Real.sq_sqrt hv']
      ring
    rw [h5] at h3
    have h6 : ((9/4 * v : ℚ) : ℝ) < ((d ^ 2 : ℚ) : ℝ) := by
      push_cast
      exact h3
    exact Rat.cast_lt.1 h6

/-- C8: the Hurst estimate is significant exactly when at least 10 shuffles
produced a valid value, the shuffled standard deviation is positive and
`|H − mean| / std` exceeds 1.5; with fewer than 10 valid shuffles the
significance is false, the baseline fields are undefined, but H itself is
still reported. -/
theorem c8_hurst_significance :
    (∀ (H : ℚ) (sh : List ℚ),
      (hurstBaselineDecision H sh).significant = true ↔
        (10 ≤ sh.length ∧
         0 < Real.sqrt ((listVariance sh : ℚ) : ℝ) ∧
         (3/2 : ℝ) <
           |((H : ℚ) : ℝ) - ((listMean sh : ℚ) : ℝ)| /
             Real.sqrt ((listVariance sh : ℚ) : ℝ))) ∧
    (∀ (H : ℚ) (sh : List ℚ), sh.length < 10 →
      hurstBaselineDecision H sh = ⟨H, none, none, false⟩) := by
  refine ⟨?_, ?_⟩
  · intro H sh
    have habs : |((H : ℚ) : ℝ) - ((listMean sh : ℚ) : ℝ)| =
        |(((H - listMean sh : ℚ)) : ℝ)| := by
      push_cast
      rfl
    rw [habs]
    by_cases hlen : sh.length < 10
    · rw [hurstBaselineDecision_eq, if_pos hlen]
      exact iff_of_false (by simp) (fun hc => absurd hc.1 (by omega))
    · rw [hurstBaselineDecision_eq, if_neg hlen]
      have hbr := significance_bridge (H - listMean sh) (listVariance sh)
        (listVariance_nonneg sh)
      by_cases hc : 0 < listVariance sh ∧
          9/4 * listVariance sh < (H - listMean sh) ^ 2
      · rw [if_pos hc]
        exact iff_of_true rfl ⟨by omega, (hbr.1 hc).1, (hbr.1 hc).2⟩
      · rw [if_neg hc]
        refine iff_of_false (by simp) (fun hr => hc (hbr.2 ⟨hr.2.1, hr.2.2⟩))
  · intro H sh hlen
    rw [hurstBaselineDecision_eq, if_pos hlen]

/-- Witness for C8: the degenerate-baseline case on an explicit short list. -/
theorem c8_hurst_significance_witness :
    hurstBaselineDecision (3/5) [1/2, 1/2, 1/2] = ⟨3/5, none, none, false⟩ := by
  exact c8_hurst_significance.2 (3/5) [1/2, 1/2, 1/2] (by norm_num)

/-- C9: the engine is deterministic — two runs on the identical input series
and configuration produce identical results, every field included, whatever
the ambient process random state, because the only randomness (the shuffle
baseline) uses a generator locally seeded with the fixed constant 42
(analysis.py line 150); `est` and `mcorr` range over the pure estimator
functions the model abstracts. -/
theorem c9_engine_deterministic :
    ∀ (est mcorr : List ℚ → Option ℚ) (inp : EngineSeries) (cfg : EngineConfig)
      (ambient1 ambient2 : ℕ),
      runEngine est mcorr inp cfg ambient1 = runEngine est mcorr inp cfg ambient2 := by
  intro est mcorr inp cfg ambient1 ambient2
  rfl

/-- The linear-interpolation percentile of a list whose elements are all
equal is that common value, for any percentile between 0 and 100. -/
lemma percentileLinear_const (l : List ℚ) (p v : ℚ) (hne : l.length ≠ 0)
    (hp0 : 0 ≤ p) (hp1 : p ≤ 100) (hall : ∀ x ∈ l, x = v) :
    percentileLinear l p = v := by
  have hslen : (l.mergeSort (· ≤ ·)).length = l.length := List.length_mergeSort l
  have hsne : (l.mergeSort (· ≤ ·)).length ≠ 0 := by rw [hslen]; exact hne
  have hsall : ∀ x ∈ l.mergeSort (· ≤ ·), x = v := fun x hx =>
    hall x (List.mem_mergeSort.1 hx)
  simp only [percentileLinear]
  rw [if_neg hsne]
  set s := l.mergeSort (· ≤ ·) with hs
  set n := s.length with hn
  set q := p * ((n : ℚ) - 1) / 100 with hq
  have hn1 : 1 ≤ n := Nat.one_le_iff_ne_zero.2 hsne
  have hnq : (1:ℚ) ≤ (n:ℚ) := by exact_mod_cast hn1
  have hq0 : 0 ≤ q := by
    apply div_nonneg _ (by norm_num)
    apply mul_nonneg hp0
    linarith
  have hqle : q ≤ (n:ℚ) - 1 := by
    rw [hq, div_le_iff₀ (by norm_num : (0:ℚ) < 100)]
    nlinarith
  have hflo : (0:ℤ) ≤ ⌊q⌋ := Int.floor_nonneg.2 hq0
  have hfle : ⌊q⌋ ≤ (n:ℤ) - 1 := by
    have h2 : (⌊q⌋ : ℚ) ≤ (n:ℚ) - 1 := le_trans (Int.floor_le q) hqle
    exact_mod_cast h2
  have hclo : (0:ℤ) ≤ ⌈q⌉ := Int.ceil_nonneg hq0
  have hcle : ⌈q⌉ ≤ (n:ℤ) - 1 := Int.ceil_le.2 (by exact_mod_cast hqle)
  have hlolt : (⌊q⌋).toNat < n := by omega
  have hhilt : (⌈q⌉).toNat < n := by omega
  rw [List.getD_eq_getElem s 0 hlolt, List.getD_eq_getElem s 0 hhilt]
  rw [hsall _ (List.getElem_mem hlolt), hsall _ (List.getElem_mem hhilt)]
  ring

/-- C10: whenever the non-overlapping block returns are all equal and at
least 6 blocks exist, `non_overlapping_mean_reversion` returns (None, None):
extreme blocks are selected by strict comparison against the 75th and 25th
percentiles, and with fully tied block returns no block strictly exceeds
either quartile, so both mean-reversion fields stay undefined despite the
minimum-sample precondition being met. -/
theorem c10_tied_blocks_mean_reversion :
    ∀ (returns : List ℚ) (w : ℕ) (v : ℚ),
      6 ≤ returns.length / w →
      (∀ x ∈ blockReturnsList returns w, x = v) →
      nonOverlappingMeanReversion returns w = (none, none) := by
  intro returns w v h6 hall
  have hlen : (blockReturnsList returns w).length = returns.length / w := by
    simp [blockReturnsList]
  have hbrne : (blockReturnsList returns w).length ≠ 0 := by rw [hlen]; omega
  have hq75 : percentileLinear (blockReturnsList returns w) 75 = v :=
    percentileLinear_const _ 75 v hbrne (by norm_num) (by norm_num) hall
  have hq25 : percentileLinear (blockReturnsList returns w) 25 = v :=
    percentileLinear_const _ 25 v hbrne (by norm_num) (by norm_num) hall
  have hup : (List.range ((blockReturnsList returns w).length - 1)).filterMap
      (fun i => if percentileLinear (blockReturnsList returns w) 75 <
          (blockReturnsList returns w).getD i 0
        then some ((blockReturnsList returns w).getD (i + 1) 0) else none) = [] := by
    rw [List.filterMap_eq_nil_iff]
    intro i hi
    have hilt : i < (blockReturnsList returns w).length := by
      have := List.mem_range.1 hi
      omega
    simp only [List.getD_eq_getElem _ 0 hilt, hall _ (List.getElem_mem hilt), hq75]
    simp
  have hdown : (List.range ((blockReturnsList returns w).length - 1)).filterMap
      (fun i => if (blockReturnsList returns w).getD i 0 <
          percentileLinear (blockReturnsList returns w) 25
        then some ((blockReturnsList returns w).getD (i + 1) 0) else none) = [] := by
    rw [List.filterMap_eq_nil_iff]
    intro i hi
    have hilt : i < (blockReturnsList returns w).length := by
      have := List.mem_range.1 hi
      omega
    simp only [List.getD_eq_getElem _ 0 hilt, hall _ (List.getElem_mem hilt), hq25]
    simp
  simp only [nonOverlappingMeanReversion]
  rw [if_neg (by omega), if_neg (by rw [hlen]; omega), hup, hdown]
  simp

/-- Witness for C10: thirty days of a constant zero return with a 5-day
window give 6 equal blocks and undefined mean-reversion fields. -/
theorem c10_tied_blocks_mean_reversion_witness :
    nonOverlappingMeanReversion (List.replicate 30 0) 5 = (none, none) := by
  apply c10_tied_blocks_mean_reversion (List.replicate 30 0) 5 0
  · rw [List.length_replicate]
  · intro x hx
    revert x
    norm_num [blockReturnsList, List.range_succ, List.replicate_succ]
